import Mathlib

/-
Verification of the calculation backend's dispatch and validation logic.

Numbers are modelled as rationals (`ℚ`): every literal appearing in the
specification and the tests is exactly representable in binary floating
point, and every claimed identity performs the same operations in the same
order on both sides, so the rational model is faithful for the claims at
hand.  Python exceptions are modelled with `Except`: `ValueError` and
`HTTPException` become the two constructors of `PyErr`.
-/

namespace App

/-- Python exceptions relevant to the dispatch logic: `ValueError msg` and
`HTTPException status detail`. -/
inductive PyErr where
  | valueError (msg : String)
  | httpException (status : Nat) (detail : String)
deriving DecidableEq, Repr

/-- `HTTPException` is the transport-level (HTTP) error representation;
`ValueError` is the domain-level one. -/
def PyErr.isTransportLevel : PyErr → Bool
  | .httpException _ _ => true
  | .valueError _ => false

/-- The input-count error messages produced by `compute`
(`app/operations/__init__.py`). -/
def PyErr.isInputCountError : PyErr → Bool
  | .httpException 400 d =>
      d = "At least two inputs are required" ||
      d = "Power expects exactly two inputs" ||
      d = "Mod expects exactly two inputs"
  | _ => false

/-- The `CalculationType` string enum of `app/schemas/calculation.py`. -/
inductive CalculationType where
  | addition
  | subtraction
  | multiplication
  | division
  | power
  | mod
deriving DecidableEq, Repr

/-- The `.value` string of each `CalculationType` member. -/
def CalculationType.value : CalculationType → String
  | .addition => "addition"
  | .subtraction => "subtraction"
  | .multiplication => "multiplication"
  | .division => "division"
  | .power => "power"
  | .mod => "mod"

/-- Python float `a ** b`, restricted to the rational model: faithful when
the exponent is an integer (`b.den = 1`) and the result is defined
(`a ≠ 0` or `0 ≤ b.num`); fractional exponents produce irrational floats
and `0.0 ** negative` raises, both outside this model, where the function
returns the junk value `0` (note `(0:ℚ) ^ (-n : ℤ) = 0` in Mathlib). -/
def pyPow (a b : ℚ) : ℚ :=
  if b.den = 1 then a ^ b.num else 0

/-- Python float `a % b` for `b ≠ 0`: `a - b * floor (a / b)`. -/
def pyFMod (a b : ℚ) : ℚ :=
  a - b * ((⌊a / b⌋ : ℤ) : ℚ)

/-- `add` from `app/operations/__init__.py`. -/
def add (a b : ℚ) : ℚ := a + b

/-- `subtract` from `app/operations/__init__.py`. -/
def subtract (a b : ℚ) : ℚ := a - b

/-- `multiply` from `app/operations/__init__.py`. -/
def multiply (a b : ℚ) : ℚ := a * b

/-- `divide` from `app/operations/__init__.py`: raises
`ValueError "Cannot divide by zero!"` when `b = 0`. -/
def divide (a b : ℚ) : Except PyErr ℚ :=
  if b = 0 then .error (.valueError "Cannot divide by zero!") else .ok (a / b)

/-- `power` from `app/operations/__init__.py`: `a ** b`. -/
def power (a b : ℚ) : ℚ := pyPow a b

/-- `mod` from `app/operations/__init__.py`: raises
`ValueError "Cannot mod by zero!"` when `b = 0`, else Python `a % b`. -/
def mod (a b : ℚ) : Except PyErr ℚ :=
  if b = 0 then .error (.valueError "Cannot mod by zero!") else .ok (pyFMod a b)

/-- The division loop of `compute`: `total = a; for x in rest: total =
divide(total, x)`, where a raised `ValueError` aborts the loop. -/
def divideFold (a : ℚ) : List ℚ → Except PyErr ℚ
  | [] => .ok a
  | x :: xs =>
    match divide a x with
    | .ok t => divideFold t xs
    | .error e => .error e

/-- The body of `compute`'s `try:` block, after `a, *rest = inputs`
(so `inputs = a :: rest` and `len(inputs) = rest.length + 1`).
The kind argument is a string because `CalculationType` is a Python `str`
enum: `calc_type == CalculationType.ADDITION` compares against the member
value `"addition"`, and so on. -/
def computeTry (t : String) (a : ℚ) (rest : List ℚ) : Except PyErr ℚ :=
  if t = "addition" then .ok ((a :: rest).sum)
  else if t = "subtraction" then .ok (rest.foldl (fun x y => x - y) a)
  else if t = "multiplication" then .ok ((a :: rest).foldl (fun x y => x * y) 1)
  else if t = "division" then divideFold a rest
  else if t = "power" then
    (if rest.length ≠ 1 then .error (.valueError "Power expects exactly two inputs")
     else .ok (power a rest.headI))
  else if t = "mod" then
    (if rest.length ≠ 1 then .error (.valueError "Mod expects exactly two inputs")
     else mod a rest.headI)
  else .error (.valueError "Unsupported operation")

/-- The `except ValueError` clause of `compute`: a domain `ValueError` is
re-raised as `HTTPException(400, str(e))`. -/
def httpTranslate : Except PyErr ℚ → Except PyErr ℚ
  | .ok v => .ok v
  | .error (.valueError msg) => .error (.httpException 400 msg)
  | .error e => .error e

/-- `compute` from `app/operations/__init__.py`.  The `[]` branch is dead
code: the length guard has already rejected lists shorter than 2. -/
def compute (calc_type : String) (inputs : List ℚ) : Except PyErr ℚ :=
  if inputs.length < 2 then
    .error (.httpException 400 "At least two inputs are required")
  else
    match inputs with
    | [] => .error (.httpException 400 "At least two inputs are required")
    | a :: rest => httpTranslate (computeTry calc_type a rest)

/-- The `ops` dictionary of `compute_endpoint` in `app/main.py`; the pure
operations are lifted into `Except` (they raise nothing). -/
def opsGet (t : String) : Option (ℚ → ℚ → Except PyErr ℚ) :=
  if t = "add" then some (fun a b => .ok (add a b))
  else if t = "subtract" then some (fun a b => .ok (subtract a b))
  else if t = "multiply" then some (fun a b => .ok (multiply a b))
  else if t = "divide" then some divide
  else if t = "power" then some (fun a b => .ok (power a b))
  else if t = "mod" then some mod
  else none

/-- `compute_endpoint` from `app/main.py` (`POST /calculations/compute`):
uses only `inputs[0]` and `inputs[1]`, checks `b == 0` for divide/mod at
route level, then dispatches through the `ops` dictionary. -/
def compute_endpoint (t : String) (inputs : List ℚ) : Except PyErr ℚ :=
  if inputs.length < 2 then
    .error (.httpException 400 "At least two inputs are required.")
  else
    let a := inputs.headI
    let b := inputs.tail.headI
    if (t = "divide" ∨ t = "mod") ∧ b = 0 then
      .error (.httpException 400
        (if t = "divide" then "Cannot divide by zero!" else "Cannot mod by zero!"))
    else
      match opsGet t with
      | none => .error (.httpException 400 "Unsupported calculation type.")
      | some f => f a b

/-- The `Literal` type annotation of `ComputeRequest.type` in
`app/main.py`: any other string is rejected by request-shape validation. -/
def computeLiteralStrings : List String :=
  ["add", "subtract", "multiply", "divide", "power", "mod"]

/-- Python `str.lower`, written over the character list so that it reduces
in the kernel (ASCII letters only, which covers every kind string). -/
def charLower (c : Char) : Char :=
  if 65 ≤ c.toNat ∧ c.toNat ≤ 90 then Char.ofNat (c.toNat + 32) else c

/-- Python `str.lower` on strings. -/
def strLower (s : String) : String := ⟨s.data.map charLower⟩

/-- The allowed kind strings of `CalculationBase.validate_type`
(`app/schemas/calculation.py`): the `CalculationType` member values. -/
def allowedTypeStrings : List String :=
  ["addition", "subtraction", "multiplication", "division", "power", "mod"]

/-- `CalculationBase.validate_type` from `app/schemas/calculation.py`:
lower-cases the string and requires it to be a `CalculationType` value. -/
def validate_type (v : String) : Except String String :=
  if strLower v ∈ allowedTypeStrings then .ok (strLower v)
  else .error "Type must be one of: addition, division, mod, multiplication, power, subtraction"

/-- Conversion from a member-value string back to the enum member. -/
def CalculationType.ofString (s : String) : Option CalculationType :=
  if s = "addition" then some .addition
  else if s = "subtraction" then some .subtraction
  else if s = "multiplication" then some .multiplication
  else if s = "division" then some .division
  else if s = "power" then some .power
  else if s = "mod" then some .mod
  else none

/-- `CalculationBase.validate_inputs` from `app/schemas/calculation.py`
(the `mode="after"` model validator). -/
def validate_inputs (t : CalculationType) (inputs : List ℚ) : Except String Unit :=
  if inputs.length < 2 then
    .error "At least two numbers are required for calculation"
  else if t = .division ∧ inputs.tail.any (fun x => decide (x = 0)) then
    .error "Cannot divide by zero"
  else if t = .mod ∧ inputs.tail.any (fun x => decide (x = 0)) then
    .error "Cannot mod by zero"
  else if (t = .power ∨ t = .mod) ∧ inputs.length ≠ 2 then
    .error (t.value ++ " expects exactly two inputs")
  else .ok ()

/-- Full request-body validation of a `CalculationBase` (type validator,
then the after-model validator).  The pydantic `min_items=2` constraint
rejects the same short lists as `validate_inputs`, with the same 422
outcome, so it is not modelled separately. -/
def validateCalculationBase (t : String) (inputs : List ℚ) : Except String CalculationType :=
  match validate_type t with
  | .error e => .error e
  | .ok tl =>
    match CalculationType.ofString tl with
    | none => .error "Type must be one of: addition, division, mod, multiplication, power, subtraction"
    | some k =>
      match validate_inputs k inputs with
      | .error e => .error e
      | .ok _ => .ok k

/-- The four persisted calculation variants (classes `Addition`,
`Subtraction`, `Multiplication`, `Division` of `app/models/calculation.py`). -/
inductive CalcVariant where
  | Addition
  | Subtraction
  | Multiplication
  | Division
deriving DecidableEq, Repr

namespace Calculation

/-- Modelled from the spec: `app/models/calculation.py` is absent from
`src/`.  Per spec §4.2 and its integration tests, the factory
`Calculation.create` maps a kind string to one of the four persisted
variants (power and mod exist only at the dispatch level, spec §2) and
raises `ValueError "Unsupported calculation type"` on any other string. -/
def create (calculation_type : String) : Except PyErr CalcVariant :=
  if calculation_type = "addition" then .ok .Addition
  else if calculation_type = "subtraction" then .ok .Subtraction
  else if calculation_type = "multiplication" then .ok .Multiplication
  else if calculation_type = "division" then .ok .Division
  else .error (.valueError "Unsupported calculation type")

end Calculation

/-- Modelled from the spec: `app/models/calculation.py` is absent from
`src/`.  Per spec §4.2, each variant's `get_result` validates its inputs
(raising `ValueError "Inputs must be a list with at least two numbers."`
for sequences shorter than two; the non-sequence case cannot arise in this
typed model) and then reduces them identically to §4.1's rules for that
kind; division raises `ValueError "Cannot divide by zero!"` on a zero
divisor, as its integration test expects. -/
def get_result (v : CalcVariant) (inputs : List ℚ) : Except PyErr ℚ :=
  if inputs.length < 2 then
    .error (.valueError "Inputs must be a list with at least two numbers.")
  else
    match v with
    | .Addition => .ok inputs.sum
    | .Subtraction => .ok (inputs.tail.foldl (fun x y => x - y) inputs.headI)
    | .Multiplication => .ok (inputs.foldl (fun x y => x * y) 1)
    | .Division => divideFold inputs.headI inputs.tail

/-- A persisted calculation record: id, owner, kind variant, inputs and
the stored derived result (`app/models/calculation.py` columns). -/
structure CalculationRecord where
  rid : Nat
  user_id : Nat
  ctype : CalcVariant
  inputs : List ℚ
  result : ℚ
deriving DecidableEq, Repr

/-- The record-constructing part of `create_calculation` in `app/main.py`:
`Calculation.create(...)` then `new_calculation.result =
new_calculation.get_result()`; any `ValueError` aborts the creation. -/
def create_calc (uid rid : Nat) (t : String) (inputs : List ℚ) :
    Except PyErr CalculationRecord :=
  match Calculation.create t with
  | .error e => .error e
  | .ok v =>
    match get_result v inputs with
    | .error e => .error e
    | .ok res => .ok ⟨rid, uid, v, inputs, res⟩

/-- The record-mutating part of `update_calculation` in `app/main.py`:
when new inputs are given, they are stored and the result recomputed via
`get_result`; an exception there aborts the update before any commit, so
the stored record is unchanged.  The kind is never changed. -/
def update_calc (r : CalculationRecord) (new_inputs : Option (List ℚ)) :
    Except PyErr CalculationRecord :=
  match new_inputs with
  | none => .ok r
  | some xs =>
    match get_result r.ctype xs with
    | .error e => .error e
    | .ok res => .ok { r with inputs := xs, result := res }

/-- HTTP status of `POST /calculations` (authenticated): pydantic schema
validation failure → 422 (FastAPI `RequestValidationError`); a
`ValueError` from the factory or `get_result` is caught by the handler →
400; otherwise 201.  The status does not depend on the record ids. -/
def createPathStatus (t : String) (inputs : List ℚ) : Nat :=
  match validateCalculationBase t inputs with
  | .error _ => 422
  | .ok _ =>
    match create_calc 0 0 t inputs with
    | .ok _ => 201
    | .error _ => 400

/-- HTTP status of `PUT /calculations/{id}` for an existing owned record:
`CalculationUpdate` schema rejects lists shorter than two → 422; the
handler has no `ValueError` handler around `get_result`, so a domain error
there propagates as an unhandled exception → 500; otherwise 200. -/
def updatePathStatus (r : CalculationRecord) (new_inputs : Option (List ℚ)) : Nat :=
  match new_inputs with
  | none => 200
  | some xs =>
    if xs.length < 2 then 422
    else
      match get_result r.ctype xs with
      | .ok _ => 200
      | .error _ => 500

/-- HTTP status of `POST /calculations/compute`: a type string outside the
`Literal` annotation → 422 (request shape); otherwise the endpoint's own
`HTTPException` status, or 200 on success (an escaped `ValueError` would
be 500, but the route-level zero check makes that unreachable). -/
def computePathStatus (t : String) (inputs : List ℚ) : Nat :=
  if t ∈ computeLiteralStrings then
    match compute_endpoint t inputs with
    | .ok _ => 200
    | .error (.httpException s _) => s
    | .error (.valueError _) => 500
  else 422

/-- The documented left-to-right fold of spec §4.1, written from the
spec's words (for comparison with `compute`): sum for addition; first
minus each subsequent input for subtraction; product with accumulator 1
for multiplication; first divided by each subsequent input for division;
first raised to the second for power; first modulo second for mod. -/
def specFold : CalculationType → List ℚ → ℚ
  | .addition, inputs => inputs.foldl (fun x y => x + y) 0
  | .subtraction, inputs => inputs.tail.foldl (fun x y => x - y) inputs.headI
  | .multiplication, inputs => inputs.foldl (fun x y => x * y) 1
  | .division, inputs => inputs.tail.foldl (fun x y => x / y) inputs.headI
  | .power, inputs => pyPow inputs.headI inputs.tail.headI
  | .mod, inputs => pyFMod inputs.headI inputs.tail.headI

end App

section Helpers

/-- If no element of `rest` is zero, the division loop succeeds and equals
the pure left fold of division. -/
theorem divideFold_ok (rest : List ℚ) : ∀ a : ℚ, (∀ x ∈ rest, x ≠ 0) →
    App.divideFold a rest = .ok (rest.foldl (fun x y => x / y) a) := by
  induction rest with
  | nil => intro a _; rfl
  | cons x xs ih =>
    intro a h
    have hx : x ≠ 0 := h x (List.mem_cons_self x xs)
    simp only [App.divideFold, App.divide, if_neg hx]
    exact ih (a / x) (fun y hy => h y (List.mem_cons_of_mem x hy))

/-- If some element of `rest` is zero, the division loop raises the
division-by-zero `ValueError`, whatever the accumulator. -/
theorem divideFold_zero (rest : List ℚ) : ∀ a : ℚ, 0 ∈ rest →
    App.divideFold a rest = .error (.valueError "Cannot divide by zero!") := by
  induction rest with
  | nil => intro a h; cases h
  | cons x xs ih =>
    intro a h
    by_cases hx : x = 0
    · subst hx
      simp [App.divideFold, App.divide]
    · have hmem : (0:ℚ) ∈ xs := by
        rcases List.mem_cons.mp h with h0 | h0
        · exact absurd h0.symm hx
        · exact h0
      simp only [App.divideFold, App.divide, if_neg hx]
      exact ih (a / x) hmem

end Helpers

/-- Claim C1: for every valid kind and input list meeting the kind's
length constraint (and with no zero divisor after the first element for
division/mod), `compute` returns exactly the documented left-to-right
fold, and in particular `compute "power" [3,4] = 81`,
`compute "mod" [14,5] = 4`, `compute "addition" [10.5,3,2] = 15.5` and
`compute "division" [100,2,5] = 10`. -/
theorem compute_matches_documented_fold :
    (∀ (t : App.CalculationType) (inputs : List ℚ),
        2 ≤ inputs.length →
        ((t = .power ∨ t = .mod) → inputs.length = 2) →
        (t = .division → ∀ x ∈ inputs.tail, x ≠ 0) →
        (t = .mod → inputs.tail.headI ≠ 0) →
        App.compute t.value inputs = .ok (App.specFold t inputs))
  ∧ App.compute "power" [3, 4] = .ok 81
  ∧ App.compute "mod" [14, 5] = .ok 4
  ∧ App.compute "addition" [10.5, 3, 2] = .ok 15.5
  ∧ App.compute "division" [100, 2, 5] = .ok 10 := by
  refine ⟨?_, ?_, ?_, ?_, ?_⟩
  · intro t inputs hlen hlen2 hdiv hmod
    cases inputs with
    | nil => simp at hlen
    | cons a rest =>
      have hne : ¬((a :: rest).length < 2) := by omega
      have hr : 1 ≤ rest.length := by
        simp only [List.length_cons] at hlen
        omega
      cases t with
      | addition =>
        simp [App.compute, if_neg hne, App.CalculationType.value, App.computeTry,
          App.httpTranslate, App.specFold, List.sum_eq_foldl, hr]
      | subtraction =>
        simp [App.compute, if_neg hne, App.CalculationType.value, App.computeTry,
          App.httpTranslate, App.specFold, hr]
      | multiplication =>
        simp [App.compute, if_neg hne, App.CalculationType.value, App.computeTry,
          App.httpTranslate, App.specFold, hr]
      | division =>
        have h0 : ∀ x ∈ rest, x ≠ 0 := hdiv rfl
        simp [App.compute, if_neg hne, App.CalculationType.value, App.computeTry,
          App.httpTranslate, App.specFold, divideFold_ok rest a h0, hr]
      | power =>
        have h2 : (a :: rest).length = 2 := hlen2 (Or.inl rfl)
        have h1 : rest.length = 1 := by simpa using h2
        simp [App.compute, if_neg hne, App.CalculationType.value, App.computeTry,
          App.httpTranslate, App.specFold, h1, App.power, hr]
      | mod =>
        have h2 : (a :: rest).length = 2 := hlen2 (Or.inr rfl)
        have h1 : rest.length = 1 := by simpa using h2
        have hb : rest.headI ≠ 0 := hmod rfl
        simp [App.compute, if_neg hne, App.CalculationType.value, App.computeTry,
          App.httpTranslate, App.specFold, h1, App.mod, if_neg hb, hr]
  · simp [App.compute, App.computeTry, App.httpTranslate, App.power, App.pyPow]
    norm_num
  · simp [App.compute, App.computeTry, App.httpTranslate, App.mod, App.pyFMod]
    norm_num
  · simp [App.compute, App.computeTry, App.httpTranslate]
    norm_num
  · simp [App.compute, App.computeTry, App.httpTranslate, App.divideFold, App.divide]
    norm_num

/-- Witness for C1: the fold theorem applied to addition on `[1, 2]`. -/
theorem compute_matches_documented_fold_witness :
    App.compute "addition" [1, 2] = .ok (App.specFold .addition [1, 2]) :=
  compute_matches_documented_fold.1 .addition [1, 2] (by decide) (by decide)
    (by decide) (by decide)

/-- Claim C3: for division, a zero divisor anywhere after the first
element always yields the division-by-zero error from `compute`
(regardless of the first element and the other divisors), and the schema
validator `validate_inputs` rejects the same inputs eagerly, before any
fold runs. -/
theorem division_zero_divisor_always_errors (a : ℚ) (rest : List ℚ)
    (h : (0:ℚ) ∈ rest) :
    App.compute "division" (a :: rest) =
      .error (.httpException 400 "Cannot divide by zero!") ∧
    App.validate_inputs .division (a :: rest) = .error "Cannot divide by zero" := by
  have hne : ¬((a :: rest).length < 2) := by
    cases rest with
    | nil => cases h
    | cons x xs => simp
  have hr : 1 ≤ rest.length := List.length_pos.mpr (List.ne_nil_of_mem h)
  constructor
  · simp [App.compute, if_neg hne, App.computeTry, App.httpTranslate,
      divideFold_zero rest a h, hr]
  · have hz : rest.any (fun x => decide (x = 0)) = true := by
      simp only [List.any_eq_true]
      exact ⟨0, h, by simp⟩
    simp [App.validate_inputs, if_neg hne, hz, hr]

/-- Witness for C3: division by a zero divisor in second position. -/
theorem division_zero_divisor_always_errors_witness :
    App.compute "division" [(50:ℚ), 0, 5] =
      .error (.httpException 400 "Cannot divide by zero!") :=
  (division_zero_divisor_always_errors 50 [0, 5] (by decide)).1

/-- Claim C5: for every first input `a`, `compute "mod" [a, 0]` fails with
the mod-by-zero error. -/
theorem mod_by_zero_always_errors (a : ℚ) :
    App.compute "mod" [a, 0] = .error (.httpException 400 "Cannot mod by zero!") := by
  simp [App.compute, App.computeTry, App.httpTranslate, App.mod]

/-- Claim C4: `compute` fails with an input-count error whenever
`len(inputs) < 2` for the four base operations, and whenever
`len(inputs) ≠ 2` for power and mod; in particular three-input power
always raises the wrong-input-count error. -/
theorem compute_input_count_errors :
    (∀ t ∈ (["addition", "subtraction", "multiplication", "division"] : List String),
        ∀ inputs : List ℚ, inputs.length < 2 →
        App.compute t inputs =
          .error (.httpException 400 "At least two inputs are required"))
  ∧ (∀ inputs : List ℚ, inputs.length ≠ 2 →
        ∃ e, App.compute "power" inputs = .error e ∧ App.PyErr.isInputCountError e = true)
  ∧ (∀ inputs : List ℚ, inputs.length ≠ 2 →
        ∃ e, App.compute "mod" inputs = .error e ∧ App.PyErr.isInputCountError e = true)
  ∧ (∀ a b c : ℚ, App.compute "power" [a, b, c] =
        .error (.httpException 400 "Power expects exactly two inputs")) := by
  refine ⟨?_, ?_, ?_, ?_⟩
  · intro t _ inputs h
    simp [App.compute, h]
  · intro inputs h
    by_cases h2 : inputs.length < 2
    · refine ⟨.httpException 400 "At least two inputs are required", ?_, by decide⟩
      simp [App.compute, h2]
    · cases inputs with
      | nil => simp at h2
      | cons a rest =>
        have hr1 : rest.length ≠ 1 := by
          simp only [List.length_cons] at h
          omega
        have hr : 1 ≤ rest.length := by
          simp only [List.length_cons, not_lt] at h2
          omega
        refine ⟨.httpException 400 "Power expects exactly two inputs", ?_, by decide⟩
        simp [App.compute, if_neg h2, App.computeTry, App.httpTranslate, hr1, hr]
  · intro inputs h
    by_cases h2 : inputs.length < 2
    · refine ⟨.httpException 400 "At least two inputs are required", ?_, by decide⟩
      simp [App.compute, h2]
    · cases inputs with
      | nil => simp at h2
      | cons a rest =>
        have hr1 : rest.length ≠ 1 := by
          simp only [List.length_cons] at h
          omega
        have hr : 1 ≤ rest.length := by
          simp only [List.length_cons, not_lt] at h2
          omega
        refine ⟨.httpException 400 "Mod expects exactly two inputs", ?_, by decide⟩
        simp [App.compute, if_neg h2, App.computeTry, App.httpTranslate, hr1, hr]
  · intro a b c
    simp [App.compute, App.computeTry, App.httpTranslate]

/-- Witness for C4: one-input addition gets the too-few-inputs error. -/
theorem compute_input_count_errors_witness :
    App.compute "addition" [(5:ℚ)] =
      .error (.httpException 400 "At least two inputs are required") :=
  compute_input_count_errors.1 "addition" (by decide) [5] (by decide)

/-- Claim C6: `compute` fails with the unsupported-operation error on any
kind string outside the six enumerated values (given inputs long enough to
pass the count check that precedes dispatch), and the record-variant
factory fails with the unsupported-type error on any string outside its
four persisted kinds, in particular on `"modulus"`. -/
theorem unsupported_kind_errors :
    (∀ t : String, t ∉ App.allowedTypeStrings →
        ∀ inputs : List ℚ, 2 ≤ inputs.length →
        App.compute t inputs = .error (.httpException 400 "Unsupported operation"))
  ∧ (∀ s : String,
        s ∉ (["addition", "subtraction", "multiplication", "division"] : List String) →
        App.Calculation.create s = .error (.valueError "Unsupported calculation type"))
  ∧ App.Calculation.create "modulus" = .error (.valueError "Unsupported calculation type") := by
  refine ⟨?_, ?_, by simp [App.Calculation.create]⟩
  · intro t ht inputs hlen
    simp only [App.allowedTypeStrings, List.mem_cons, List.not_mem_nil, or_false,
      not_or] at ht
    obtain ⟨h1, h2, h3, h4, h5, h6⟩ := ht
    cases inputs with
    | nil => simp at hlen
    | cons a rest =>
      have hne : ¬((a :: rest).length < 2) := by omega
      have hr : 1 ≤ rest.length := by
        simp only [List.length_cons] at hlen
        omega
      simp [App.compute, if_neg hne, App.computeTry, App.httpTranslate,
        h1, h2, h3, h4, h5, h6, hr]
  · intro s hs
    simp only [List.mem_cons, List.not_mem_nil, or_false, not_or] at hs
    obtain ⟨h1, h2, h3, h4⟩ := hs
    simp [App.Calculation.create, h1, h2, h3, h4]

/-- Witness for C6: the kind string `"modulus"` with two inputs. -/
theorem unsupported_kind_errors_witness :
    App.compute "modulus" [(10:ℚ), 3] =
      .error (.httpException 400 "Unsupported operation") :=
  unsupported_kind_errors.1 "modulus" (by decide) [10, 3] (by decide)

/-- Claim C7 counterexample: on a division by zero, `compute` itself
signals the transport-level `HTTPException(400)`, not a domain-level
`ValueError`. -/
theorem compute_error_is_transport_level :
    App.compute "division" [1, 0] =
      .error (.httpException 400 "Cannot divide by zero!") ∧
    App.PyErr.isTransportLevel (.httpException 400 "Cannot divide by zero!") = true := by
  constructor
  · simp [App.compute, App.computeTry, App.httpTranslate, App.divideFold, App.divide]
  · rfl

/-- Claim C7 amended: the primitive operations signal domain failures as
`ValueError`, but `compute` itself translates them and raises the
transport-level `HTTPException(400)` — the translation happens inside the
dispatch function, not at the boundary. -/
theorem compute_translates_domain_errors_itself :
    (∀ a : ℚ, App.divide a 0 = .error (.valueError "Cannot divide by zero!"))
  ∧ (∀ a : ℚ, App.mod a 0 = .error (.valueError "Cannot mod by zero!"))
  ∧ (∀ a : ℚ, App.compute "division" [a, 0] =
        .error (.httpException 400 "Cannot divide by zero!"))
  ∧ (∀ a : ℚ, App.compute "mod" [a, 0] =
        .error (.httpException 400 "Cannot mod by zero!")) := by
  refine ⟨?_, ?_, ?_, ?_⟩ <;> intro a <;>
    simp [App.divide, App.mod, App.compute, App.computeTry, App.httpTranslate,
      App.divideFold]

/-- Claim C2 counterexample: on `[10.5, 3, 2]` the compute-only endpoint
returns `10.5 + 3 = 13.5` while the dispatch function `compute` returns
the full sum `15.5` — they disagree on a valid addition request. -/
theorem endpoint_vs_compute_counterexample :
    App.compute_endpoint "add" [10.5, 3, 2] = .ok 13.5 ∧
    App.compute "addition" [10.5, 3, 2] = .ok 15.5 ∧
    (13.5 : ℚ) ≠ 15.5 := by
  refine ⟨?_, ?_, by norm_num⟩
  · simp [App.compute_endpoint, App.opsGet, App.add]
    norm_num
  · simp [App.compute, App.computeTry, App.httpTranslate]
    norm_num

/-- Claim C2 amended: the compute-only endpoint agrees with the dispatch
function `compute` exactly on two-element input lists (the endpoint's kind
strings translated to the dispatch kind values); on longer lists the
endpoint applies the binary operation to the first two inputs only. -/
theorem endpoint_agrees_with_compute_on_two_inputs :
    (∀ a b : ℚ, App.compute_endpoint "add" [a, b] = App.compute "addition" [a, b])
  ∧ (∀ a b : ℚ, App.compute_endpoint "subtract" [a, b] = App.compute "subtraction" [a, b])
  ∧ (∀ a b : ℚ, App.compute_endpoint "multiply" [a, b] = App.compute "multiplication" [a, b])
  ∧ (∀ a b : ℚ, App.compute_endpoint "divide" [a, b] = App.compute "division" [a, b])
  ∧ (∀ a b : ℚ, App.compute_endpoint "power" [a, b] = App.compute "power" [a, b])
  ∧ (∀ a b : ℚ, App.compute_endpoint "mod" [a, b] = App.compute "mod" [a, b]) := by
  refine ⟨?_, ?_, ?_, ?_, ?_, ?_⟩ <;> intro a b
  · simp [App.compute_endpoint, App.opsGet, App.add, App.compute, App.computeTry,
      App.httpTranslate]
  · simp [App.compute_endpoint, App.opsGet, App.subtract, App.compute, App.computeTry,
      App.httpTranslate]
  · simp [App.compute_endpoint, App.opsGet, App.multiply, App.compute, App.computeTry,
      App.httpTranslate]
  · by_cases hb : b = 0
    · subst hb
      simp [App.compute_endpoint, App.compute, App.computeTry, App.httpTranslate,
        App.divideFold, App.divide]
    · simp [App.compute_endpoint, App.opsGet, App.compute, App.computeTry,
        App.httpTranslate, App.divideFold, App.divide, hb]
  · simp [App.compute_endpoint, App.opsGet, App.power, App.compute, App.computeTry,
      App.httpTranslate]
  · by_cases hb : b = 0
    · subst hb
      simp [App.compute_endpoint, App.compute, App.computeTry, App.httpTranslate,
        App.mod]
    · simp [App.compute_endpoint, App.opsGet, App.compute, App.computeTry,
        App.httpTranslate, App.mod, hb]

/-- Claim C10: the compute-only endpoint's result depends only on the kind
and the first two inputs — two requests of the same kind agreeing on
`inputs[0]` and `inputs[1]` get the same answer — and a divide request on
`[8, 2, 0]` succeeds with result `4` despite the trailing zero. -/
theorem endpoint_depends_only_on_first_two :
    (∀ (t : String) (xs ys : List ℚ),
        2 ≤ xs.length → 2 ≤ ys.length →
        xs.headI = ys.headI → xs.tail.headI = ys.tail.headI →
        App.compute_endpoint t xs = App.compute_endpoint t ys)
  ∧ App.compute_endpoint "divide" [8, 2, 0] = .ok 4 := by
  constructor
  · intro t xs ys hx hy h0 h1
    have hxne : ¬(xs.length < 2) := by omega
    have hyne : ¬(ys.length < 2) := by omega
    simp only [App.compute_endpoint, if_neg hxne, if_neg hyne, h0, h1]
  · simp [App.compute_endpoint, App.opsGet, App.divide]
    norm_num

/-- Witness for C10: `[8, 2, 0]` and `[8, 2]` share the first two inputs
and get the same result. -/
theorem endpoint_depends_only_on_first_two_witness :
    App.compute_endpoint "divide" [8, 2, 0] = App.compute_endpoint "divide" [8, 2] :=
  endpoint_depends_only_on_first_two.1 "divide" [8, 2, 0] [8, 2]
    (by decide) (by decide) rfl rfl

/-- Claim C8 counterexample: a division-by-zero domain error on the create
path is surfaced as HTTP 422 (the request schema performs the domain check
inside request validation), not as the claimed 400. -/
theorem domain_error_status_counterexample :
    App.createPathStatus "division" [5, 0] = 422 ∧ (422 : Nat) ≠ 400 := by
  refine ⟨?_, by decide⟩
  simp [App.createPathStatus, App.validateCalculationBase, App.validate_type,
    App.strLower, App.charLower, App.allowedTypeStrings, App.CalculationType.ofString,
    App.validate_inputs]

/-- Claim C8 amended: domain validation errors are surfaced as HTTP 400 on
the compute-only path (too few inputs, divide/mod by zero) and on the
create path when raised inside the handler (unsupported factory type); but
domain checks performed by the request schema on the create path (such as
division by zero) surface as 422, and a division-by-zero discovered by
result recomputation on the update path propagates unhandled (500). -/
theorem domain_error_statuses :
    (∀ t ∈ App.computeLiteralStrings, ∀ inputs : List ℚ, inputs.length < 2 →
        App.computePathStatus t inputs = 400)
  ∧ (∀ (a : ℚ) (rest : List ℚ), App.computePathStatus "divide" (a :: 0 :: rest) = 400)
  ∧ (∀ (a : ℚ) (rest : List ℚ), App.computePathStatus "mod" (a :: 0 :: rest) = 400)
  ∧ App.createPathStatus "power" [2, 8] = 400
  ∧ App.createPathStatus "division" [5, 0] = 422
  ∧ (∀ (r : App.CalculationRecord) (a : ℚ), r.ctype = .Division →
        App.updatePathStatus r (some [a, 0]) = 500) := by
  refine ⟨?_, ?_, ?_, ?_, ?_, ?_⟩
  · intro t ht inputs h
    simp [App.computePathStatus, ht, App.compute_endpoint, h]
  · intro a rest
    have hne : ¬((a :: 0 :: rest).length < 2) := by
      simp only [List.length_cons]
      omega
    have hne2 : ¬(rest.length + 1 + 1 < 2) := by omega
    simp [App.computePathStatus, App.computeLiteralStrings, App.compute_endpoint,
      if_neg hne, hne2]
  · intro a rest
    have hne : ¬((a :: 0 :: rest).length < 2) := by
      simp only [List.length_cons]
      omega
    have hne2 : ¬(rest.length + 1 + 1 < 2) := by omega
    simp [App.computePathStatus, App.computeLiteralStrings, App.compute_endpoint,
      if_neg hne, hne2]
  · simp [App.createPathStatus, App.validateCalculationBase, App.validate_type,
      App.strLower, App.charLower, App.allowedTypeStrings, App.CalculationType.ofString,
      App.validate_inputs, App.create_calc, App.Calculation.create]
  · simp [App.createPathStatus, App.validateCalculationBase, App.validate_type,
      App.strLower, App.charLower, App.allowedTypeStrings, App.CalculationType.ofString,
      App.validate_inputs]
  · intro r a hr
    simp [App.updatePathStatus, App.get_result, hr, App.divideFold, App.divide]

/-- Witness for C8 (amended): a one-input add request on the compute path
gets HTTP 400. -/
theorem domain_error_statuses_witness :
    App.computePathStatus "add" [(7:ℚ)] = 400 :=
  domain_error_statuses.1 "add" (by decide) [7] (by decide)

/-- Claim C9: the stored `result` field equals the pure reduction of
`(kind, inputs)` after every successful create, and the invariant is
preserved by every successful update (which recomputes `result` exactly
when it replaces `inputs`); no operation sets `result` independently. -/
theorem result_is_pure_function_of_kind_and_inputs :
    (∀ (uid rid : Nat) (t : String) (inputs : List ℚ) (r : App.CalculationRecord),
        App.create_calc uid rid t inputs = .ok r →
        App.get_result r.ctype r.inputs = .ok r.result)
  ∧ (∀ (r r' : App.CalculationRecord) (upd : Option (List ℚ)),
        App.get_result r.ctype r.inputs = .ok r.result →
        App.update_calc r upd = .ok r' →
        App.get_result r'.ctype r'.inputs = .ok r'.result) := by
  constructor
  · intro uid rid t inputs r h
    cases hc : App.Calculation.create t with
    | error e => simp [App.create_calc, hc] at h
    | ok v =>
      cases hg : App.get_result v inputs with
      | error e => simp [App.create_calc, hc, hg] at h
      | ok res =>
        simp only [App.create_calc, hc, hg] at h
        injection h with h
        subst h
        simpa using hg
  · intro r r' upd hinv h
    cases upd with
    | none =>
      simp only [App.update_calc] at h
      injection h with h
      subst h
      exact hinv
    | some xs =>
      cases hg : App.get_result r.ctype xs with
      | error e => simp [App.update_calc, hg] at h
      | ok res =>
        simp only [App.update_calc, hg] at h
        injection h with h
        subst h
        simpa using hg

/-- Witness for C9: a freshly created addition record on `[0, 0]`
satisfies the invariant. -/
theorem result_is_pure_function_witness :
    App.get_result .Addition [0, 0] = .ok 0 :=
  result_is_pure_function_of_kind_and_inputs.1 0 7 "addition" [0, 0]
    (App.CalculationRecord.mk 7 0 .Addition [0, 0] 0)
    (by simp [App.create_calc, App.Calculation.create, App.get_result])
